import Mathlib

/-!
Shallow embedding of the `geokde` Python package (files `geokde/_kernels.py`,
`geokde/_utils.py`, `geokde/geokde.py`) and proofs about the claims of its
specification.

Modelling conventions:
* Python floats are modelled as exact rationals (`ℚ`) for all coordinate /
  bounds / index arithmetic (no floating-point rounding is modelled), and as
  reals (`ℝ`) wherever the source computes with `np.sqrt` or `np.pi`
  (kernel evaluation).
* Python's builtin `round` (round-half-to-even, "banker's rounding") is
  modelled exactly by `pyRound`.
* The KDE accumulation array is modelled as a total function `ℤ → ℤ → ℝ`
  from (row, column) indices to cell values; the in-place numpy slice
  addition `array[miny:maxy, minx:maxx] += kde_array` becomes a pointwise
  update of the cells inside the half-open rectangle.
* Python exceptions are modelled by the inductive type `KdeError`; each
  constructor records in a comment which concrete exception of the source
  it stands for.
-/

namespace GeoKde

/-! ## Python's `round`: round-half-to-even -/

/-- Python's builtin `round` on a rational value: nearest integer, ties to
the even neighbour. -/
def pyRound (q : ℚ) : ℤ :=
  if q - ⌊q⌋ < 1/2 then ⌊q⌋
  else if 1/2 < q - ⌊q⌋ then ⌊q⌋ + 1
  else if Even ⌊q⌋ then ⌊q⌋ else ⌊q⌋ + 1

theorem pyRound_intCast (n : ℤ) : pyRound (n : ℚ) = n := by
  simp [pyRound]

theorem pyRound_le (q : ℚ) : (pyRound q : ℚ) ≤ q + 1/2 := by
  unfold pyRound
  have hf : (⌊q⌋ : ℚ) ≤ q := Int.floor_le q
  split
  · linarith
  · split
    · have h1 : (⌊q⌋ : ℚ) + 1 ≤ q + 1 := by linarith
      have h2 : ¬ (q - ⌊q⌋ < 1/2) := by assumption
      push_neg at h2
      push_cast
      linarith
    · split
      · linarith
      · have h2 : ¬ (q - ⌊q⌋ < 1/2) := by assumption
        push_neg at h2
        push_cast
        linarith

theorem le_pyRound (q : ℚ) : q - 1/2 ≤ (pyRound q : ℚ) := by
  unfold pyRound
  have hf : q < ⌊q⌋ + 1 := Int.lt_floor_add_one q
  split
  · have h1 : q - (⌊q⌋ : ℚ) < 1/2 := by assumption
    linarith
  · split
    · push_cast
      linarith
    · split
      · have h2 : ¬ (1/2 < q - (⌊q⌋ : ℚ)) := by assumption
        push_neg at h2
        linarith
      · push_cast
        linarith

/-- When the tie is rounded up, the fractional part is exactly 1/2 and the
floor is odd; when rounded down at a tie, the floor is even.  These two facts
drive the monotonicity proof. -/
theorem pyRound_mono : Monotone pyRound := by
  intro q1 q2 h12
  by_contra hlt
  push_neg at hlt
  -- pyRound q2 < pyRound q1, hence pyRound q2 + 1 ≤ pyRound q1
  have hstep : pyRound q2 + 1 ≤ pyRound q1 := hlt
  have h1 : (pyRound q1 : ℚ) ≤ q1 + 1/2 := pyRound_le q1
  have h2 : q2 - 1/2 ≤ (pyRound q2 : ℚ) := le_pyRound q2
  have hcast : (pyRound q2 : ℚ) + 1 ≤ (pyRound q1 : ℚ) := by exact_mod_cast hstep
  -- So q2 + 1/2 ≤ pyRound q2 + 1 ≤ pyRound q1 ≤ q1 + 1/2 forces q1 = q2 and
  -- both roundings to land exactly at the half-integer tie.
  have hq : q1 = q2 := le_antisymm h12 (by linarith)
  subst hq
  omega

/-! ## Kernels (`geokde/_kernels.py`)

Each kernel takes a Euclidean distance, a search radius and a weight and
returns a density value.  The source guards every kernel with
`if distance < radius: ... else: value = 0.0`. -/

/-- The list `VALID_KERNELS` from `_kernels.py`. -/
def VALID_KERNELS : List String := ["epanechnikov", "quartic", "triweight"]

open Classical in
/-- Function `quartic_raw` from `_kernels.py`. -/
noncomputable def quartic_raw (distance radius weight : ℝ) : ℝ :=
  if distance < radius then weight * (1 - (distance / radius)^2)^2 else 0

open Classical in
/-- Function `quartic_scaled` from `_kernels.py`. -/
noncomputable def quartic_scaled (distance radius weight : ℝ) : ℝ :=
  if distance < radius then
    weight * ((116 / (5 * Real.pi * radius^2)) * (15/16) * (1 - (distance / radius)^2)^2)
  else 0

open Classical in
/-- Function `epanechnikov_raw` from `_kernels.py`. -/
noncomputable def epanechnikov_raw (distance radius weight : ℝ) : ℝ :=
  if distance < radius then weight * (1 - (distance / radius)^2) else 0

open Classical in
/-- Function `epanechnikov_scaled` from `_kernels.py`. -/
noncomputable def epanechnikov_scaled (distance radius weight : ℝ) : ℝ :=
  if distance < radius then
    weight * ((8 / (3 * Real.pi * radius^2)) * (3/4) * (1 - (distance / radius)^2))
  else 0

open Classical in
/-- Function `triweight_raw` from `_kernels.py`. -/
noncomputable def triweight_raw (distance radius weight : ℝ) : ℝ :=
  if distance < radius then weight * (1 - (distance / radius)^2)^3 else 0

open Classical in
/-- Function `triweight_scaled` from `_kernels.py`. -/
noncomputable def triweight_scaled (distance radius weight : ℝ) : ℝ :=
  if distance < radius then
    weight * ((128 / (35 * Real.pi * radius^2)) * (35/32) * (1 - (distance / radius)^2)^3)
  else 0

/-! ## Data model

A `GeoFrame` models the geopandas GeoDataFrame the package consumes: one
geometry-type tag and one coordinate pair per record, plus named attribute
columns.  A non-numeric column carries meaningless values behind a
`numeric := false` flag (the source raises before ever reading them). -/

/-- One named attribute column of the GeoDataFrame.  `vals` has one entry
per record; `none` models a null (missing) entry. -/
structure Column where
  name : String
  numeric : Bool
  vals : List (Option ℚ)
  deriving DecidableEq

/-- The point dataset: geometry type tag, coordinates and attribute columns,
all indexed per record. -/
structure GeoFrame where
  geomTypes : List String
  coords : List (ℚ × ℚ)
  columns : List Column
  deriving DecidableEq

/-- The `radius` / `weight` argument of `kde`: a Python `int`/`float` scalar
or a `str` column name. -/
inductive KdeArg
  | scalar (v : ℚ)
  | name (s : String)
  deriving DecidableEq

/-- The `scale` argument of `kde`: a genuine Python `bool`, or any value of
another type (which `isinstance(scale, bool)` rejects). -/
inductive PyScale
  | bool (b : Bool)
  | notBool
  deriving DecidableEq

/-- The Python exceptions the source can raise, tagged with the
specification's error taxonomy where one applies. -/
inductive KdeError
  /-- Python `TypeError` (non-point geometry, non-bool scale, non-numeric column);
  the spec's TypeMismatch. -/
  | typeMismatch
  /-- Python `ValueError` for a bad kernel name, a radius/weight argument that is
  neither column nor scalar, or `resolution > radius.max()`; the spec's
  InvalidArgument. -/
  | invalidArgument
  /-- Python `ValueError("... column must be complete.")`; the spec's MissingData. -/
  | missingData
  /-- Python `ZeroDivisionError` / `OverflowError` from `round(extent / 0)` in
  `create_array`. -/
  | zeroDivisionOrOverflow
  /-- numpy `ValueError: negative dimensions are not allowed` from
  `np.full((height, width), 0.0)` with a negative dimension. -/
  | negativeDimensions
  /-- numpy `ValueError` from `.max()` on a zero-size array (empty dataset). -/
  | emptyReduction
  /-- The spec's InvalidConfiguration error class.  No line of the source
  raises it; it exists here so that claims about it can be stated. -/
  | invalidConfiguration
  deriving DecidableEq

/-- Bounding box in `minx, miny, maxx, maxy` order, as the list returned by
`adjust_bounds`. -/
structure Bounds where
  minx : ℚ
  miny : ℚ
  maxx : ℚ
  maxy : ℚ
  deriving DecidableEq

/-- A row of the `array_points` ndarray built by `get_points`: grid-space x,
grid-space y, search window radius in cells, weight. -/
structure GridPoint where
  x : ℚ
  y : ℚ
  window : ℚ
  weight : ℚ
  deriving DecidableEq

/-- The KDE accumulation array, as a total map from (row, column) to value.
The allocated shape is carried separately (`create_array`). -/
def Grid := ℤ → ℤ → ℝ

/-- Array `np.full((height, width), 0.0)`: the zero-initialized grid. -/
def zeroGrid : Grid := fun _ _ => 0

/-! ## `geokde/_utils.py` -/

/-- The membership test `arg in points.columns` of `validate_transform`,
returning the matched column.  A scalar argument never matches (column
names are strings). -/
def matched_column (arg : KdeArg) (points : GeoFrame) : Option Column :=
  points.columns.find?
    (fun c => match arg with | .name s => c.name == s | .scalar _ => false)

/-- Function `validate_transform` from `_utils.py`.  The `arg_name` parameter of the
source only feeds exception messages and is dropped. -/
def validate_transform (arg : KdeArg) (points : GeoFrame) :
    Except KdeError (List ℚ) :=
  match matched_column arg points with
  | some col =>
    if ¬ col.numeric then .error .typeMismatch
    else if col.vals.any (fun v => v.isNone) then .error .missingData
    else .ok (col.vals.map (fun v => v.getD 0))
  | none =>
    match arg with
    | .scalar v => .ok (List.replicate points.coords.length v)
    | .name _ => .error .invalidArgument

/-- Function `adjust_bounds` from `_utils.py`: pad the envelope by `radius` on all
four sides.  (No grid re-alignment happens here.) -/
def adjust_bounds (minx miny maxx maxy radius : ℚ) : Bounds :=
  ⟨minx - radius, miny - radius, maxx + radius, maxy + radius⟩

/-- Function `create_array` from `_utils.py`, reduced to the shape it allocates:
`width = round((maxx - minx)/resolution)`, `height = round((maxy - miny)/resolution)`,
then `np.full((height, width), 0.0)`.  A zero resolution raises on the
division/round, and numpy refuses negative dimensions; no other validation
exists in the source. -/
def create_array (minx miny maxx maxy resolution : ℚ) :
    Except KdeError (ℤ × ℤ) :=
  if resolution = 0 then .error .zeroDivisionOrOverflow
  else
    let width := pyRound ((maxx - minx) / resolution)
    let height := pyRound ((maxy - miny) / resolution)
    if width < 0 ∨ height < 0 then .error .negativeDimensions
    else .ok (height, width)

/-- Property `points.total_bounds`: the envelope of the point coordinates. -/
def total_bounds (coords : List (ℚ × ℚ)) : Bounds :=
  match coords with
  | [] => ⟨0, 0, 0, 0⟩
  | c :: rest =>
    rest.foldl
      (fun b p => ⟨min b.minx p.1, min b.miny p.2, max b.maxx p.1, max b.maxy p.2⟩)
      ⟨c.1, c.2, c.1, c.2⟩

/-- Function `get_points` from `_utils.py`: project world coordinates to fractional
grid indices and radii to cell units, one `GridPoint` per record. -/
def get_points (coords : List (ℚ × ℚ)) (minx maxy : ℚ)
    (radius weight : List ℚ) (resolution : ℚ) : List GridPoint :=
  (coords.zip (radius.zip weight)).map
    (fun cw => ⟨(cw.1.1 - minx) / resolution, (maxy - cw.1.2) / resolution,
                cw.2.1 / resolution, cw.2.2⟩)

open Classical in
/-- The Euclidean distance from a point's fractional grid position to the
center `(col + 0.5, row + 0.5)` of a grid cell, as computed by
`np.sqrt(pow(x_idx - x, 2) + pow(y_idx - y, 2))` over the `ogrid` ranges. -/
noncomputable def cellDistance (p : GridPoint) (row col : ℤ) : ℝ :=
  Real.sqrt (((col : ℝ) + 1/2 - (p.x : ℝ))^2 + ((row : ℝ) + 1/2 - (p.y : ℝ))^2)

/-- Membership of the grid cell `(row, col)` in the integer stamp rectangle
`[round(y-window), round(y+window)) × [round(x-window), round(x+window))`
computed by `add_point_kde`. -/
def inStamp (p : GridPoint) (row col : ℤ) : Prop :=
  pyRound (p.y - p.window) ≤ row ∧ row < pyRound (p.y + p.window) ∧
  pyRound (p.x - p.window) ≤ col ∧ col < pyRound (p.x + p.window)

instance (p : GridPoint) (row col : ℤ) : Decidable (inStamp p row col) := by
  unfold inStamp; infer_instance

/-- Function `add_point_kde` from `_utils.py`: stamp the kernel evaluated over the
integer rectangle of `inStamp` additively onto the array (the in-place
`array[miny:maxy, minx:maxx] += kde_array`). -/
noncomputable def add_point_kde (p : GridPoint) (kernel : ℝ → ℝ → ℝ → ℝ)
    (array : Grid) : Grid :=
  fun row col =>
    if inStamp p row col then
      array row col + kernel (cellDistance p row col) (p.window : ℝ) (p.weight : ℝ)
    else array row col

/-- The kernel dispatch table `kernel_vfuncs` of `calculate_kde`. -/
noncomputable def kernel_vfunc (kernel : String) (scale : Bool) :
    ℝ → ℝ → ℝ → ℝ :=
  if kernel = "epanechnikov" then
    (if scale then epanechnikov_scaled else epanechnikov_raw)
  else if kernel = "quartic" then
    (if scale then quartic_scaled else quartic_raw)
  else
    (if scale then triweight_scaled else triweight_raw)

/-- Function `calculate_kde` from `_utils.py`: fold `add_point_kde` over the points,
mutating the array in place (modelled as a fold). -/
noncomputable def calculate_kde (points : List GridPoint) (array : Grid)
    (kernel : ℝ → ℝ → ℝ → ℝ) : Grid :=
  points.foldl (fun g p => add_point_kde p kernel g) array

/-! ## `geokde/geokde.py` -/

/-- The pair `(array, bounds)` returned by `kde`, with the allocated shape
`(height, width)` of the array carried explicitly. -/
structure KdeResult where
  grid : Grid
  bounds : Bounds
  shape : ℤ × ℤ

/-- The arguments of `kde`. -/
structure KdeInput where
  points : GeoFrame
  radius : KdeArg
  resolution : ℚ
  kernel : String
  weight : KdeArg
  scale : PyScale
  deriving DecidableEq

/-- Function `kde` from `geokde.py`: validation in source order, then bounds
padding, array allocation, projection and accumulation. -/
noncomputable def kde (inp : KdeInput) : Except KdeError KdeResult :=
  if ¬ inp.points.geomTypes.all (· == "Point") then .error .typeMismatch
  else if inp.kernel ∉ VALID_KERNELS then .error .invalidArgument
  else match inp.scale with
  | .notBool => .error .typeMismatch
  | .bool scale =>
    match validate_transform inp.radius inp.points with
    | .error e => .error e
    | .ok radius =>
      match validate_transform inp.weight inp.points with
      | .error e => .error e
      | .ok weight =>
        match radius with
        | [] => .error .emptyReduction
        | r0 :: rs =>
          if inp.resolution > rs.foldl max r0 then .error .invalidArgument
          else
            let tb := total_bounds inp.points.coords
            let b := adjust_bounds tb.minx tb.miny tb.maxx tb.maxy (rs.foldl max r0)
            match create_array b.minx b.miny b.maxx b.maxy inp.resolution with
            | .error e => .error e
            | .ok shape =>
              .ok ⟨calculate_kde
                     (get_points inp.points.coords b.minx b.maxy radius weight
                       inp.resolution)
                     zeroGrid (kernel_vfunc inp.kernel scale),
                   b, shape⟩

/-! ## Kernel lemmas -/

theorem div_sq_le_one {d r : ℝ} (h0 : 0 ≤ d) (h2 : d ≤ r) (hr : 0 < r) :
    (d / r)^2 ≤ 1 := by
  have hu : d / r ≤ 1 := (div_le_one hr).mpr h2
  have hu0 : 0 ≤ d / r := div_nonneg h0 hr.le
  nlinarith

/-- C4: every kernel, raw and scaled, is exactly 0 at any distance at or
beyond the radius. -/
theorem kernels_zero_outside_support (d r w : ℝ) (_hr : 0 < r) (hd : r ≤ d) :
    quartic_raw d r w = 0 ∧ quartic_scaled d r w = 0 ∧
    epanechnikov_raw d r w = 0 ∧ epanechnikov_scaled d r w = 0 ∧
    triweight_raw d r w = 0 ∧ triweight_scaled d r w = 0 := by
  have h : ¬ d < r := not_lt.mpr hd
  simp [quartic_raw, quartic_scaled, epanechnikov_raw, epanechnikov_scaled,
    triweight_raw, triweight_scaled, h]

/-- Witness for C4 at `distance = radius = 1`, `weight = 1` (the boundary
case `distance == radius`). -/
theorem kernels_zero_outside_support_witness :
    quartic_raw 1 1 1 = 0 ∧ quartic_scaled 1 1 1 = 0 ∧
    epanechnikov_raw 1 1 1 = 0 ∧ epanechnikov_scaled 1 1 1 = 0 ∧
    triweight_raw 1 1 1 = 0 ∧ triweight_scaled 1 1 1 = 0 :=
  kernels_zero_outside_support 1 1 1 one_pos (le_refl 1)

/-- C5: at distance 0 the raw kernels return the weight exactly, and the
scaled kernels return `weight * norm_const * coefficient` with the source's
normalization constants. -/
theorem kernels_at_distance_zero (r w : ℝ) (hr : 0 < r) :
    quartic_raw 0 r w = w ∧
    quartic_scaled 0 r w = w * (116 / (5 * Real.pi * r^2)) * (15/16) ∧
    epanechnikov_raw 0 r w = w ∧
    epanechnikov_scaled 0 r w = w * (8 / (3 * Real.pi * r^2)) * (3/4) ∧
    triweight_raw 0 r w = w ∧
    triweight_scaled 0 r w = w * (128 / (35 * Real.pi * r^2)) * (35/32) := by
  refine ⟨?_, ?_, ?_, ?_, ?_, ?_⟩ <;>
    simp [quartic_raw, quartic_scaled, epanechnikov_raw, epanechnikov_scaled,
      triweight_raw, triweight_scaled, hr, zero_div] <;> ring

/-- Witness for C5 at `radius = 1`, `weight = 2`. -/
theorem kernels_at_distance_zero_witness :
    quartic_raw 0 1 2 = 2 ∧
    quartic_scaled 0 1 2 = 2 * (116 / (5 * Real.pi * 1^2)) * (15/16) ∧
    epanechnikov_raw 0 1 2 = 2 ∧
    epanechnikov_scaled 0 1 2 = 2 * (8 / (3 * Real.pi * 1^2)) * (3/4) ∧
    triweight_raw 0 1 2 = 2 ∧
    triweight_scaled 0 1 2 = 2 * (128 / (35 * Real.pi * 1^2)) * (35/32) :=
  kernels_at_distance_zero 1 2 one_pos

/-- C8 counterexample: with a negative weight the raw kernel value is NOT
non-increasing in distance — at `d1 = 0 ≤ d2 = 1 = radius`, weight `-1`,
the Epanechnikov raw value rises from `-1` to `0`. -/
theorem raw_kernel_monotone_cex :
    (0:ℝ) ≤ 0 ∧ (0:ℝ) ≤ 1 ∧ (1:ℝ) ≤ 1 ∧ (0:ℝ) < 1 ∧
    ¬ (epanechnikov_raw 0 1 (-1) ≥ epanechnikov_raw 1 1 (-1)) := by
  refine ⟨le_refl 0, zero_le_one, le_refl 1, one_pos, ?_⟩
  simp [epanechnikov_raw]

/-- C8 (amended with `0 ≤ weight`): for a fixed radius `> 0` and fixed
non-negative weight, each raw kernel is non-increasing in distance on
`[0, radius]`. -/
theorem raw_kernels_nonincreasing (r w d1 d2 : ℝ) (hr : 0 < r) (hw : 0 ≤ w)
    (h0 : 0 ≤ d1) (h12 : d1 ≤ d2) (h2 : d2 ≤ r) :
    epanechnikov_raw d2 r w ≤ epanechnikov_raw d1 r w ∧
    quartic_raw d2 r w ≤ quartic_raw d1 r w ∧
    triweight_raw d2 r w ≤ triweight_raw d1 r w := by
  have hu1 : 0 ≤ d1 / r := div_nonneg h0 hr.le
  have hu12 : d1 / r ≤ d2 / r := by gcongr
  have hsq12 : (d1/r)^2 ≤ (d2/r)^2 := by nlinarith
  have hsq2 : (d2/r)^2 ≤ 1 := div_sq_le_one (le_trans h0 h12) h2 hr
  have hsq1 : (d1/r)^2 ≤ 1 := le_trans hsq12 hsq2
  refine ⟨?_, ?_, ?_⟩
  · unfold epanechnikov_raw
    split_ifs with hA hB hB
    · exact mul_le_mul_of_nonneg_left (by linarith) hw
    · exact absurd (lt_of_le_of_lt h12 hA) hB
    · exact mul_nonneg hw (by linarith)
    · exact le_rfl
  · unfold quartic_raw
    split_ifs with hA hB hB
    · exact mul_le_mul_of_nonneg_left
        (pow_le_pow_left₀ (by linarith) (by linarith) 2) hw
    · exact absurd (lt_of_le_of_lt h12 hA) hB
    · exact mul_nonneg hw (pow_nonneg (by linarith) 2)
    · exact le_rfl
  · unfold triweight_raw
    split_ifs with hA hB hB
    · exact mul_le_mul_of_nonneg_left
        (pow_le_pow_left₀ (by linarith) (by linarith) 3) hw
    · exact absurd (lt_of_le_of_lt h12 hA) hB
    · exact mul_nonneg hw (pow_nonneg (by linarith) 3)
    · exact le_rfl

/-- Witness for the amended C8 at `radius = 2`, `weight = 1`, distances
`1 ≤ 2`. -/
theorem raw_kernels_nonincreasing_witness :
    epanechnikov_raw 2 2 1 ≤ epanechnikov_raw 1 2 1 ∧
    quartic_raw 2 2 1 ≤ quartic_raw 1 2 1 ∧
    triweight_raw 2 2 1 ≤ triweight_raw 1 2 1 :=
  raw_kernels_nonincreasing 2 1 1 2 two_pos zero_le_one zero_le_one
    one_le_two (le_refl 2)

/-! ## Accumulation lemmas (C2) -/

/-- Pointwise reading of `add_point_kde`: each cell receives its old value
plus the kernel contribution if it lies in the stamp rectangle, else is
left unchanged. -/
theorem add_point_kde_apply (p : GridPoint) (K : ℝ → ℝ → ℝ → ℝ) (g : Grid)
    (row col : ℤ) :
    add_point_kde p K g row col =
      g row col +
        (if inStamp p row col then
          K (cellDistance p row col) (p.window : ℝ) (p.weight : ℝ) else 0) := by
  unfold add_point_kde
  split_ifs with h
  · rfl
  · exact (add_zero _).symm

/-- C2: at a cell covered by both points' stamp windows, the two-point run
accumulates exactly the sum of the two single-point runs (additive
overlap-accumulation into the zero-initialized grid). -/
theorem calculate_kde_two_point_additive (K : ℝ → ℝ → ℝ → ℝ)
    (p1 p2 : GridPoint) (row col : ℤ)
    (_h1 : inStamp p1 row col) (_h2 : inStamp p2 row col) :
    calculate_kde [p1, p2] zeroGrid K row col =
      calculate_kde [p1] zeroGrid K row col +
      calculate_kde [p2] zeroGrid K row col := by
  simp only [calculate_kde, List.foldl_cons, List.foldl_nil,
    add_point_kde_apply]
  show (0:ℝ) + _ + _ = (0 + _) + (0 + _)
  ring

/-- The stamp rectangle of the point at grid position (2,2) with window 2
contains the cell (row 2, col 2). -/
theorem inStamp_ex1 : inStamp ⟨2, 2, 2, 1⟩ 2 2 := by
  norm_num [inStamp, pyRound]

/-- The stamp rectangle of the point at grid position (3,2) with window 2
contains the cell (row 2, col 2). -/
theorem inStamp_ex2 : inStamp ⟨3, 2, 2, 1⟩ 2 2 := by
  norm_num [inStamp, pyRound]

/-- Witness for C2: two concrete overlapping points, evaluated at a shared
cell with the raw quartic kernel. -/
theorem calculate_kde_two_point_additive_witness :
    calculate_kde [⟨2, 2, 2, 1⟩, ⟨3, 2, 2, 1⟩] zeroGrid quartic_raw 2 2 =
      calculate_kde [(⟨2, 2, 2, 1⟩ : GridPoint)] zeroGrid quartic_raw 2 2 +
      calculate_kde [(⟨3, 2, 2, 1⟩ : GridPoint)] zeroGrid quartic_raw 2 2 :=
  calculate_kde_two_point_additive quartic_raw _ _ 2 2 inStamp_ex1 inStamp_ex2

/-! ## Attribute resolver (C6) -/

/-- C6: the full case analysis of `validate_transform`.  For a dataset of
`N = points.coords.length` records and a column of `N` entries:
a matched non-numeric column fails with TypeMismatch; a matched numeric but
incomplete column fails with MissingData; a matched numeric complete column
is returned value-for-value; an unmatched scalar is broadcast to `N` copies;
an unmatched non-scalar fails with InvalidArgument. -/
theorem validate_transform_spec (arg : KdeArg) (points : GeoFrame) :
    (∀ col, matched_column arg points = some col →
        col.vals.length = points.coords.length →
      (col.numeric = false →
        validate_transform arg points = .error .typeMismatch) ∧
      (col.numeric = true → (∃ v ∈ col.vals, v = none) →
        validate_transform arg points = .error .missingData) ∧
      (col.numeric = true → (∀ v ∈ col.vals, v ≠ none) →
        ∃ out, validate_transform arg points = .ok out ∧
          out.length = points.coords.length ∧
          out.map (fun x => some x) = col.vals)) ∧
    (matched_column arg points = none →
      (∀ v, arg = .scalar v →
        ∃ out, validate_transform arg points = .ok out ∧
          out.length = points.coords.length ∧ ∀ x ∈ out, x = v) ∧
      (∀ s, arg = .name s →
        validate_transform arg points = .error .invalidArgument)) := by
  constructor
  · intro col hcol hlen
    refine ⟨?_, ?_, ?_⟩
    · intro hnum
      unfold validate_transform
      rw [hcol]
      simp [hnum]
    · intro hnum hnull
      unfold validate_transform
      rw [hcol]
      have hany : col.vals.any (fun v => v.isNone) = true := by
        rw [List.any_eq_true]
        obtain ⟨v, hv, hvn⟩ := hnull
        exact ⟨v, hv, by simp [hvn]⟩
      simp [hnum, hany]
    · intro hnum hfull
      refine ⟨col.vals.map (fun v => v.getD 0), ?_, ?_, ?_⟩
      · unfold validate_transform
        rw [hcol]
        have hany : col.vals.any (fun v => v.isNone) = false := by
          rw [List.any_eq_false]
          intro v hv
          have := hfull v hv
          simp [Option.isNone_iff_eq_none, this]
        simp [hnum, hany]
      · rw [List.length_map, hlen]
      · rw [List.map_map]
        have : ∀ v ∈ col.vals, ((fun x => some x) ∘ fun v => v.getD 0) v = id v := by
          intro v hv
          have := hfull v hv
          cases v with
          | none => exact absurd rfl this
          | some a => rfl
        rw [List.map_congr_left this, List.map_id]
  · intro hnone
    constructor
    · intro v hv
      refine ⟨List.replicate points.coords.length v, ?_, ?_, ?_⟩
      · unfold validate_transform
        rw [hnone, hv]
      · exact List.length_replicate _ _
      · intro x hx
        exact List.eq_of_mem_replicate hx
    · intro s hs
      unfold validate_transform
      rw [hnone, hs]

/-- Witness for C6: broadcasting the scalar `5` over a two-record dataset
with no columns yields a length-2 array of fives. -/
theorem validate_transform_spec_witness :
    ∃ out,
      validate_transform (.scalar 5)
        ⟨["Point", "Point"], [(0, 0), (1, 1)], []⟩ = .ok out ∧
      out.length = 2 ∧ ∀ x ∈ out, x = 5 :=
  ((validate_transform_spec (.scalar 5)
      ⟨["Point", "Point"], [(0, 0), (1, 1)], []⟩).2 rfl).1 5 rfl

/-! ## Orchestrator validation order (C3) -/

/-- C3: `kde` validates in the fixed source order — geometry type, kernel
name, `scale` boolean, radius resolution, weight resolution, then
`resolution > radius.max()` — the first failing check wins, and a failed
check returns its error without reaching `create_array` or
`calculate_kde` (the result carries no grid). -/
theorem kde_validation_order (inp : KdeInput) :
    (¬ inp.points.geomTypes.all (· == "Point") →
      kde inp = .error .typeMismatch) ∧
    (inp.points.geomTypes.all (· == "Point") → inp.kernel ∉ VALID_KERNELS →
      kde inp = .error .invalidArgument) ∧
    (inp.points.geomTypes.all (· == "Point") → inp.kernel ∈ VALID_KERNELS →
      inp.scale = .notBool → kde inp = .error .typeMismatch) ∧
    (∀ b e, inp.points.geomTypes.all (· == "Point") →
      inp.kernel ∈ VALID_KERNELS → inp.scale = .bool b →
      validate_transform inp.radius inp.points = .error e →
      kde inp = .error e) ∧
    (∀ b rad e, inp.points.geomTypes.all (· == "Point") →
      inp.kernel ∈ VALID_KERNELS → inp.scale = .bool b →
      validate_transform inp.radius inp.points = .ok rad →
      validate_transform inp.weight inp.points = .error e →
      kde inp = .error e) ∧
    (∀ b r0 rs wt, inp.points.geomTypes.all (· == "Point") →
      inp.kernel ∈ VALID_KERNELS → inp.scale = .bool b →
      validate_transform inp.radius inp.points = .ok (r0 :: rs) →
      validate_transform inp.weight inp.points = .ok wt →
      inp.resolution > rs.foldl max r0 →
      kde inp = .error .invalidArgument) := by
  refine ⟨?_, ?_, ?_, ?_, ?_, ?_⟩
  · intro h
    unfold kde
    rw [if_pos h]
  · intro h1 h2
    unfold kde
    rw [if_neg (not_not_intro h1), if_pos h2]
  · intro h1 h2 h3
    unfold kde
    rw [if_neg (not_not_intro h1), if_neg (not_not_intro h2), h3]
  · intro b e h1 h2 h3 h4
    unfold kde
    rw [if_neg (not_not_intro h1), if_neg (not_not_intro h2), h3, h4]
  · intro b rad e h1 h2 h3 h4 h5
    unfold kde
    rw [if_neg (not_not_intro h1), if_neg (not_not_intro h2), h3, h4, h5]
  · intro b r0 rs wt h1 h2 h3 h4 h5 h6
    unfold kde
    rw [if_neg (not_not_intro h1), if_neg (not_not_intro h2), h3, h4, h5]
    simp only
    rw [if_pos h6]

/-- Witness for C3: a dataset holding a polygon fails the geometry check
with TypeMismatch (here even though the kernel name is also invalid, the
geometry check fires first). -/
theorem kde_validation_order_witness :
    kde ⟨⟨["Polygon"], [(0, 0)], []⟩, .scalar 1, 1, "bogus", .scalar 1,
        .bool false⟩ = .error .typeMismatch :=
  (kde_validation_order _).1 (by simp)

/-! ## Grid allocation errors (C7) -/

/-- C7 counterexample: `create_array` never raises the spec's
InvalidConfiguration.  With resolution `-1` (non-positive) on bounds
`(0,0,1,1)` it fails with numpy's negative-dimensions `ValueError`, and the
zero-width combination `(0,0,2/5,2/5)` at resolution 1 silently succeeds
with an empty `(0, 0)` grid. -/
theorem create_array_invalid_configuration_cex :
    create_array 0 0 1 1 (-1) = .error .negativeDimensions ∧
    create_array 0 0 1 1 (-1) ≠ .error .invalidConfiguration ∧
    create_array 0 0 (2/5) (2/5) 1 = .ok (0, 0) := by
  refine ⟨?_, ?_, ?_⟩
  · norm_num [create_array, pyRound]
  · norm_num [create_array, pyRound]
    decide
  · norm_num [create_array, pyRound]

/-- C7 (amended): `create_array` performs no configuration validation.
A zero resolution fails with the division/overflow error, a negative
computed dimension fails with numpy's negative-dimensions error, any other
input succeeds (zero-sized grids included), and no input ever yields the
spec's InvalidConfiguration error. -/
theorem create_array_no_invalid_configuration
    (minx miny maxx maxy resolution : ℚ) :
    (resolution = 0 →
      create_array minx miny maxx maxy resolution =
        .error .zeroDivisionOrOverflow) ∧
    (resolution ≠ 0 →
      (pyRound ((maxx - minx) / resolution) < 0 ∨
       pyRound ((maxy - miny) / resolution) < 0) →
      create_array minx miny maxx maxy resolution =
        .error .negativeDimensions) ∧
    (resolution ≠ 0 → 0 ≤ pyRound ((maxx - minx) / resolution) →
      0 ≤ pyRound ((maxy - miny) / resolution) →
      create_array minx miny maxx maxy resolution =
        .ok (pyRound ((maxy - miny) / resolution),
             pyRound ((maxx - minx) / resolution))) ∧
    create_array minx miny maxx maxy resolution ≠
      .error .invalidConfiguration := by
  refine ⟨?_, ?_, ?_, ?_⟩
  · intro h
    unfold create_array
    rw [if_pos h]
  · intro h hneg
    unfold create_array
    rw [if_neg h, if_pos hneg]
  · intro h hw hh
    unfold create_array
    rw [if_neg h, if_neg (by push_neg; exact ⟨hw, hh⟩)]
  · unfold create_array
    split_ifs with h1
    · simp
    · simp only []
      split
      · simp
      · simp

/-- Witness for the amended C7 at resolution 0. -/
theorem create_array_no_invalid_configuration_witness :
    create_array 0 0 1 1 0 = .error .zeroDivisionOrOverflow :=
  (create_array_no_invalid_configuration 0 0 1 1 0).1 rfl

/-! ## Stamp-window safety (C9) -/

theorem pyRound_zero : pyRound 0 = 0 := by norm_num [pyRound]

/-- C9: for a point inside the original envelope whose radius is at most
the padding radius, the integer stamp rectangle of `add_point_kde` lies
inside `[0, width] × [0, height]` of the grid allocated by `create_array`
on the `adjust_bounds`-padded envelope: no negative index (hence no numpy
wraparound) and the kernel sub-array always matches the target slice. -/
theorem stamp_window_in_bounds
    (minx0 miny0 maxx0 maxy0 px py rad wt rmax res : ℚ) (height width : ℤ)
    (hpx1 : minx0 ≤ px) (hpx2 : px ≤ maxx0)
    (hpy1 : miny0 ≤ py) (hpy2 : py ≤ maxy0)
    (hrad0 : 0 ≤ rad) (hradm : rad ≤ rmax) (hres : 0 < res)
    (harr : create_array (adjust_bounds minx0 miny0 maxx0 maxy0 rmax).minx
        (adjust_bounds minx0 miny0 maxx0 maxy0 rmax).miny
        (adjust_bounds minx0 miny0 maxx0 maxy0 rmax).maxx
        (adjust_bounds minx0 miny0 maxx0 maxy0 rmax).maxy res =
      .ok (height, width))
    (gp : GridPoint)
    (hgp : gp ∈ get_points [(px, py)]
        (adjust_bounds minx0 miny0 maxx0 maxy0 rmax).minx
        (adjust_bounds minx0 miny0 maxx0 maxy0 rmax).maxy [rad] [wt] res) :
    0 ≤ pyRound (gp.x - gp.window) ∧
    pyRound (gp.x - gp.window) ≤ pyRound (gp.x + gp.window) ∧
    pyRound (gp.x + gp.window) ≤ width ∧
    0 ≤ pyRound (gp.y - gp.window) ∧
    pyRound (gp.y - gp.window) ≤ pyRound (gp.y + gp.window) ∧
    pyRound (gp.y + gp.window) ≤ height := by
  simp only [get_points, adjust_bounds, List.zip_cons_cons, List.zip_nil_right,
    List.map_cons, List.map_nil, List.mem_singleton] at hgp
  subst hgp
  unfold create_array at harr
  rw [if_neg (ne_of_gt hres)] at harr
  simp only [adjust_bounds] at harr
  split_ifs at harr with hneg
  rw [Except.ok.injEq, Prod.mk.injEq] at harr
  obtain ⟨hheight, hwidth⟩ := harr
  have hresle : (0:ℚ) ≤ res := le_of_lt hres
  have hwnn : (0:ℚ) ≤ rad / res := div_nonneg hrad0 hresle
  refine ⟨?_, ?_, ?_, ?_, ?_, ?_⟩
  · have h0 : (0:ℚ) ≤ (px - (minx0 - rmax)) / res - rad / res := by
      rw [div_sub_div_same]
      apply div_nonneg _ hresle
      linarith
    calc (0:ℤ) = pyRound 0 := pyRound_zero.symm
    _ ≤ _ := pyRound_mono h0
  · exact pyRound_mono (by linarith)
  · rw [← hwidth]
    apply pyRound_mono
    rw [div_add_div_same]
    apply div_le_div_of_nonneg_right ?_ hresle
    linarith
  · have h0 : (0:ℚ) ≤ (maxy0 + rmax - py) / res - rad / res := by
      rw [div_sub_div_same]
      apply div_nonneg _ hresle
      linarith
    calc (0:ℤ) = pyRound 0 := pyRound_zero.symm
    _ ≤ _ := pyRound_mono h0
  · exact pyRound_mono (by linarith)
  · rw [← hheight]
    apply pyRound_mono
    rw [div_add_div_same]
    apply div_le_div_of_nonneg_right ?_ hresle
    linarith

/-- The grid allocated over the `(0,0)-(10,10)` envelope padded by 2 at
resolution 1 has shape `(14, 14)`. -/
theorem create_array_ex :
    create_array (adjust_bounds 0 0 10 10 2).minx
      (adjust_bounds 0 0 10 10 2).miny (adjust_bounds 0 0 10 10 2).maxx
      (adjust_bounds 0 0 10 10 2).maxy 1 = .ok (14, 14) := by
  norm_num [create_array, adjust_bounds, pyRound]

/-- Projecting the point `(5,5)` with radius 1 and weight 1 into that grid
yields grid position `(7, 7)` with window 1. -/
theorem get_points_ex :
    (⟨7, 7, 1, 1⟩ : GridPoint) ∈ get_points [((5 : ℚ), (5 : ℚ))]
      (adjust_bounds 0 0 10 10 2).minx (adjust_bounds 0 0 10 10 2).maxy
      [1] [1] 1 := by
  norm_num [get_points, adjust_bounds]

/-- Witness for C9 on the `(5,5)` point of `create_array_ex` /
`get_points_ex`. -/
theorem stamp_window_in_bounds_witness :
    0 ≤ pyRound ((⟨7, 7, 1, 1⟩ : GridPoint).x - (⟨7, 7, 1, 1⟩ : GridPoint).window) ∧
    pyRound ((⟨7, 7, 1, 1⟩ : GridPoint).x - (⟨7, 7, 1, 1⟩ : GridPoint).window) ≤
      pyRound ((⟨7, 7, 1, 1⟩ : GridPoint).x + (⟨7, 7, 1, 1⟩ : GridPoint).window) ∧
    pyRound ((⟨7, 7, 1, 1⟩ : GridPoint).x + (⟨7, 7, 1, 1⟩ : GridPoint).window) ≤ 14 ∧
    0 ≤ pyRound ((⟨7, 7, 1, 1⟩ : GridPoint).y - (⟨7, 7, 1, 1⟩ : GridPoint).window) ∧
    pyRound ((⟨7, 7, 1, 1⟩ : GridPoint).y - (⟨7, 7, 1, 1⟩ : GridPoint).window) ≤
      pyRound ((⟨7, 7, 1, 1⟩ : GridPoint).y + (⟨7, 7, 1, 1⟩ : GridPoint).window) ∧
    pyRound ((⟨7, 7, 1, 1⟩ : GridPoint).y + (⟨7, 7, 1, 1⟩ : GridPoint).window) ≤ 14 :=
  stamp_window_in_bounds 0 0 10 10 5 5 1 1 2 1 14 14
    (by decide) (by decide) (by decide) (by decide) (by decide)
    (by decide) (by decide) create_array_ex ⟨7, 7, 1, 1⟩ get_points_ex

/-! ## Returned bounds are not grid-aligned (C1) -/

/-- A concrete valid input: two points `(0,0)` and `(1,1)`, scalar radius
`1/4`, resolution `1/5`, quartic kernel, weight 1, unscaled.  The padded
extent `3/2` is not a multiple of the resolution `1/5`. -/
def c1Input : KdeInput :=
  ⟨⟨["Point", "Point"], [(0, 0), (1, 1)], []⟩, .scalar (1/4), 1/5,
   "quartic", .scalar 1, .bool false⟩

/-- Full evaluation of `kde` on `c1Input`: it succeeds, returning the
radius-padded (not grid-aligned) bounds `(-1/4,-1/4,5/4,5/4)` and an `8×8`
grid (`round(7.5) = 8` by round-half-to-even). -/
theorem kde_c1_eval :
    kde c1Input =
      .ok ⟨calculate_kde [⟨5/4, 25/4, 5/4, 1⟩, ⟨25/4, 5/4, 5/4, 1⟩] zeroGrid
             (kernel_vfunc "quartic" false),
           ⟨-(1/4), -(1/4), 5/4, 5/4⟩, (8, 8)⟩ := by
  norm_num [kde, c1Input, validate_transform, matched_column, total_bounds,
    adjust_bounds, create_array, get_points, pyRound, VALID_KERNELS,
    List.replicate]
  norm_num [Int.fract, Int.even_iff]

/-- C1 counterexample: on `c1Input` the extent of the returned bounds is
`3/2`, which `width * resolution = 8 * (1/5) = 8/5` does not match (nor
does the height make `height * resolution` match `maxy - miny`): `kde`
returns the padded envelope unmodified, without the outward max-bound
re-adjustment the claim requires. -/
theorem kde_bounds_not_grid_aligned_cex :
    (kde c1Input).map (fun r => (r.bounds, r.shape)) =
      .ok (⟨-(1/4), -(1/4), 5/4, 5/4⟩, (8, 8)) ∧
    Int.fract (((5/4 : ℚ) - -(1/4)) / (1/5)) ≠ 0 ∧
    (8 : ℚ) * (1/5) ≠ (5/4 : ℚ) - -(1/4) := by
  refine ⟨?_, ?_, ?_⟩
  · rw [kde_c1_eval]
    rfl
  · norm_num [Int.fract]
  · norm_num

theorem pyRound_mul_close (q res : ℚ) (h : 0 < res) :
    |(pyRound (q / res) : ℚ) * res - q| ≤ res / 2 := by
  have h1 := pyRound_le (q / res)
  have h2 := le_pyRound (q / res)
  have hc : q / res * res = q := div_mul_cancel₀ q (ne_of_gt h)
  rw [abs_le]
  constructor
  · have h3 := mul_le_mul_of_nonneg_right h2 h.le
    rw [sub_mul, hc] at h3
    linarith
  · have h3 := mul_le_mul_of_nonneg_right h1 h.le
    rw [add_mul, hc] at h3
    linarith

/-- C1 (amended): `kde` performs no re-adjustment of the max bounds; the
returned shape is the half-even rounding of extent/resolution on each axis,
so `width * resolution` agrees with the returned extent only to within half
a resolution (exactly the rounding slack), not exactly. -/
theorem kde_bounds_rounded (inp : KdeInput) (res : KdeResult)
    (hres : kde inp = .ok res) (hpos : 0 < inp.resolution) :
    res.shape.2 = pyRound ((res.bounds.maxx - res.bounds.minx) / inp.resolution) ∧
    res.shape.1 = pyRound ((res.bounds.maxy - res.bounds.miny) / inp.resolution) ∧
    |(res.shape.2 : ℚ) * inp.resolution - (res.bounds.maxx - res.bounds.minx)| ≤
      inp.resolution / 2 ∧
    |(res.shape.1 : ℚ) * inp.resolution - (res.bounds.maxy - res.bounds.miny)| ≤
      inp.resolution / 2 := by
  unfold kde at hres
  by_cases h1 : ¬ inp.points.geomTypes.all (· == "Point")
  · rw [if_pos h1] at hres
    simp at hres
  rw [if_neg h1] at hres
  by_cases h2 : inp.kernel ∉ VALID_KERNELS
  · rw [if_pos h2] at hres
    simp at hres
  rw [if_neg h2] at hres
  rcases hs : inp.scale with b | _
  all_goals rw [hs] at hres
  on_goal 2 => simp at hres
  rcases hr : validate_transform inp.radius inp.points with e | rad
  all_goals rw [hr] at hres
  on_goal 1 => simp at hres
  rcases hw : validate_transform inp.weight inp.points with e | wt
  all_goals rw [hw] at hres
  on_goal 1 => simp at hres
  rcases rad with _ | ⟨r0, rs⟩
  · simp at hres
  simp only at hres
  by_cases h3 : inp.resolution > rs.foldl max r0
  · rw [if_pos h3] at hres
    simp at hres
  rw [if_neg h3] at hres
  rcases hca : create_array
      (adjust_bounds (total_bounds inp.points.coords).minx
        (total_bounds inp.points.coords).miny
        (total_bounds inp.points.coords).maxx
        (total_bounds inp.points.coords).maxy (rs.foldl max r0)).minx
      (adjust_bounds (total_bounds inp.points.coords).minx
        (total_bounds inp.points.coords).miny
        (total_bounds inp.points.coords).maxx
        (total_bounds inp.points.coords).maxy (rs.foldl max r0)).miny
      (adjust_bounds (total_bounds inp.points.coords).minx
        (total_bounds inp.points.coords).miny
        (total_bounds inp.points.coords).maxx
        (total_bounds inp.points.coords).maxy (rs.foldl max r0)).maxx
      (adjust_bounds (total_bounds inp.points.coords).minx
        (total_bounds inp.points.coords).miny
        (total_bounds inp.points.coords).maxx
        (total_bounds inp.points.coords).maxy (rs.foldl max r0)).maxy
      inp.resolution with e | shape
  all_goals rw [hca] at hres
  on_goal 1 => simp at hres
  rw [Except.ok.injEq] at hres
  subst hres
  unfold create_array at hca
  rw [if_neg (ne_of_gt hpos)] at hca
  simp only [] at hca
  split_ifs at hca with h4
  rw [Except.ok.injEq] at hca
  subst hca
  refine ⟨rfl, rfl, ?_, ?_⟩
  · exact pyRound_mul_close _ _ hpos
  · exact pyRound_mul_close _ _ hpos

theorem c1_resolution_pos : 0 < c1Input.resolution := by
  norm_num [c1Input]

/-- Witness for the amended C1 on `c1Input`. -/
theorem kde_bounds_rounded_witness :
    ((8, 8) : ℤ × ℤ).2 = pyRound (((5/4 : ℚ) - -(1/4)) / (1/5)) ∧
    ((8, 8) : ℤ × ℤ).1 = pyRound (((5/4 : ℚ) - -(1/4)) / (1/5)) ∧
    |((8 : ℤ) : ℚ) * (1/5) - ((5/4 : ℚ) - -(1/4))| ≤ (1/5 : ℚ) / 2 ∧
    |((8 : ℤ) : ℚ) * (1/5) - ((5/4 : ℚ) - -(1/4))| ≤ (1/5 : ℚ) / 2 :=
  kde_bounds_rounded c1Input
    ⟨calculate_kde [⟨5/4, 25/4, 5/4, 1⟩, ⟨25/4, 5/4, 5/4, 1⟩] zeroGrid
       (kernel_vfunc "quartic" false),
     ⟨-(1/4), -(1/4), 5/4, 5/4⟩, (8, 8)⟩
    kde_c1_eval c1_resolution_pos

/-! ## A valid point can contribute nothing (C10) -/

/-- A valid input whose second point has a tiny per-point radius: points
`(0,0)` and `(5,3)`, radius column `[2, 1/10]` (max 2 ≥ resolution 1),
resolution 1, quartic kernel, weight 1, unscaled. -/
def c10Input : KdeInput :=
  ⟨⟨["Point", "Point"], [(0, 0), (5, 3)],
    [⟨"radius", true, [some 2, some (1/10)]⟩]⟩,
   .name "radius", 1, "quartic", .scalar 1, .bool false⟩

/-- Full evaluation of `kde` on `c10Input`: validation passes, the bounds
are `(-2,-2,7,5)`, the grid is `7×9`, and the two projected grid points are
`(2,5)` with window 2 and `(7,2)` with window `1/10`. -/
theorem kde_c10_eval :
    kde c10Input =
      .ok ⟨calculate_kde [⟨2, 5, 2, 1⟩, ⟨7, 2, 1/10, 1⟩] zeroGrid
             (kernel_vfunc "quartic" false),
           ⟨-2, -2, 7, 5⟩, (7, 9)⟩ := by
  norm_num [kde, c10Input, validate_transform, matched_column, total_bounds,
    adjust_bounds, create_array, get_points, pyRound, VALID_KERNELS,
    List.replicate]

/-- The stamp rectangle of the projected point `(7,2)` with window `1/10`
is empty: `round(7 - 0.1) = round(7 + 0.1) = 7`. -/
theorem c10_empty_stamp (row col : ℤ) : ¬ inStamp ⟨7, 2, 1/10, 1⟩ row col := by
  intro h
  obtain ⟨-, -, h3, h4⟩ := h
  have e1 : pyRound ((7 : ℚ) - 1/10) = 7 := by norm_num [pyRound]
  have e2 : pyRound ((7 : ℚ) + 1/10) = 7 := by norm_num [pyRound]
  rw [show (⟨7, 2, 1/10, 1⟩ : GridPoint).x - (⟨7, 2, 1/10, 1⟩ : GridPoint).window
        = (7 : ℚ) - 1/10 from rfl, e1] at h3
  rw [show (⟨7, 2, 1/10, 1⟩ : GridPoint).x + (⟨7, 2, 1/10, 1⟩ : GridPoint).window
        = (7 : ℚ) + 1/10 from rfl, e2] at h4
  omega

/-- C10: on the valid input `c10Input`, `kde` succeeds, yet the point with
strictly positive window `1/10` (radius `1/10 > 0`) and strictly positive
weight 1 contributes nothing: its stamp rectangle is empty
(`round(x-window) = round(x+window)`), so the accumulated grid equals the
grid obtained from the first point alone. -/
theorem kde_small_radius_point_contributes_nothing :
    kde c10Input =
      .ok ⟨calculate_kde [⟨2, 5, 2, 1⟩, ⟨7, 2, 1/10, 1⟩] zeroGrid
             (kernel_vfunc "quartic" false),
           ⟨-2, -2, 7, 5⟩, (7, 9)⟩ ∧
    (0 : ℚ) < (⟨7, 2, 1/10, 1⟩ : GridPoint).window ∧
    (0 : ℚ) < (⟨7, 2, 1/10, 1⟩ : GridPoint).weight ∧
    pyRound ((⟨7, 2, 1/10, 1⟩ : GridPoint).x -
        (⟨7, 2, 1/10, 1⟩ : GridPoint).window) =
      pyRound ((⟨7, 2, 1/10, 1⟩ : GridPoint).x +
        (⟨7, 2, 1/10, 1⟩ : GridPoint).window) ∧
    calculate_kde [⟨2, 5, 2, 1⟩, ⟨7, 2, 1/10, 1⟩] zeroGrid
        (kernel_vfunc "quartic" false) =
      calculate_kde [⟨2, 5, 2, 1⟩] zeroGrid (kernel_vfunc "quartic" false) := by
  refine ⟨kde_c10_eval, by norm_num, by norm_num, by norm_num [pyRound], ?_⟩
  simp only [calculate_kde, List.foldl_cons, List.foldl_nil]
  funext row col
  rw [add_point_kde_apply, if_neg (c10_empty_stamp row col)]
  exact add_zero _

end GeoKde
